import Mathlib

/-! Shallow embedding of the DB-API style adapter in
src/clickhouse_driver/connect.py: the Connection and Cursor classes over an
underlying ClickHouse client.  Pure data is modelled directly; each mutating
method becomes a function from the cursor to (outcome, cursor after the
call), so that attribute writes performed before an exception is raised are
kept, exactly as in Python. -/

set_option autoImplicit false

deriving instance DecidableEq for Except

namespace CHConnect

/-- A cell value in a result row. -/
abbrev Val := Int

/-- A result row: a tuple of values. -/
abbrev Row := List Val

/-- A columns_with_types value: ordered (column name, type name) pairs. -/
abbrev CWT := List (String × String)

/-- The structure argument of set_external_table: (name, type) pairs. -/
abbrev TableStructure := List (String × String)

/-- A settings dict: an insertion-ordered association list. -/
abbrev Settings := List (String × Int)

/-- Python dict assignment d[k] = v on an insertion-ordered dict: replaces
the value in place when the key is present, otherwise appends the pair. -/
def dictSet {α : Type} : List (String × α) → String → α → List (String × α)
  | [], k, v => [(k, v)]
  | (k0, v0) :: rest, k, v =>
    if k0 = k then (k, v) :: rest else (k0, v0) :: dictSet rest k v

/-- Python dict lookup d.get(k). -/
def dictGet {α : Type} : List (String × α) → String → Option α
  | [], _ => none
  | (k0, v0) :: rest, k => if k0 = k then some v0 else dictGet rest k

/-- Elements produced by the lazy sequence that client.execute_iter returns:
per the client contract the first element is the columns_with_types header
and every later element is a row. -/
inductive StreamElem where
  | hdr (cwt : CWT)
  | row (r : Row)
deriving DecidableEq

/-- A value the underlying client can return from execute or execute_iter:
None, a (rows, columns_with_types) pair, a lazy iterator, or a plain
affected-row count from a bulk write. -/
inductive PyResponse where
  | pyNone
  | pair (rows : List Row) (cwt : CWT)
  | iter (elems : List StreamElem)
  | count (n : Int)
deriving DecidableEq

/-- Python truthiness of a response object: None is falsy, a two-tuple is
always truthy, an iterator object is always truthy (even when exhausted),
an int is truthy iff nonzero. -/
def PyResponse.truthy : PyResponse → Bool
  | PyResponse.pyNone => false
  | PyResponse.pair _ _ => true
  | PyResponse.iter _ => true
  | PyResponse.count n => n != 0

/-- Errors observable at the adapter boundary.  adapterError is the module
base class Error; operationalError is OperationalError wrapping the driver
error text; the rest are Python builtin exceptions. -/
inductive PyErr where
  | adapterError (msg : String)
  | operationalError (orig : String)
  | valueError (msg : String)
  | typeError (msg : String)
  | attributeError (msg : String)
  | stopIteration
deriving DecidableEq

/-- Cursor lifecycle states, class States in the source. -/
inductive CState where
  | NONE
  | RUNNING
  | FINISHED
  | CURSOR_CLOSED
deriving DecidableEq

/-- The _rows attribute: None right after a reset, a materialized list after
a buffered execute, or the remaining lazy iterator after a streaming
execute. -/
inductive RowsState where
  | pynone
  | buf (l : List Row)
  | stream (l : List StreamElem)
deriving DecidableEq

/-- The Cursor object: one field per instance attribute that __init__ and
_reset_state assign.  _rowcount holds whatever object was last assigned to
it: the int -1 after a reset, the raw response after an executemany. -/
structure Cursor where
  _state : CState
  _columns : Option (List String)
  _types : Option (List String)
  _rows : RowsState
  _rowcount : PyResponse
  _stream_results : Bool
  _max_row_buffer : Int
  _settings : Option Settings
  _external_tables : List (String × (TableStructure × List Row))
  _types_check : Bool
  arraysize : Int
deriving DecidableEq

/-- Values a fetch call can hand back: None, a row tuple, or (only on a
malformed stream) a header list. -/
inductive Fetched where
  | fnone
  | frow (r : Row)
  | fhdr (cwt : CWT)
deriving DecidableEq

def StreamElem.toFetched : StreamElem → Fetched
  | StreamElem.hdr c => Fetched.fhdr c
  | StreamElem.row r => Fetched.frow r

/-- Result of fetchall: normally a list; on the degenerate paths Python
would instead return the raw stored object (None, or an iterator). -/
inductive FetchAllVal where
  | vlist (l : List Fetched)
  | vnone
  | viter (l : List StreamElem)
deriving DecidableEq

/-- The _reset_state method: resets the query state; in the source it is
called from __init__ only. -/
def Cursor._reset_state (c : Cursor) : Cursor :=
  { c with
    _state := CState.NONE, _columns := none, _types := none,
    _rows := RowsState.pynone, _rowcount := PyResponse.count (-1),
    _stream_results := false, _max_row_buffer := 0, _settings := none,
    _external_tables := [], _types_check := false }

/-- A fresh cursor as produced by __init__, which calls _reset_state and
then sets arraysize = -1. -/
def Cursor.initial : Cursor :=
  Cursor._reset_state
    { _state := CState.NONE, _columns := none, _types := none,
      _rows := RowsState.pynone, _rowcount := PyResponse.count (-1),
      _stream_results := false, _max_row_buffer := 0, _settings := none,
      _external_tables := [], _types_check := false, arraysize := -1 }

/-- The rowcount property: the source returns the literal -1 and never
reads the _rowcount attribute. -/
def Cursor.rowcount (_c : Cursor) : Int := -1

/-- The description property: one 7-slot descriptor per column. -/
def Cursor.description (c : Cursor) :
    List (String × String × Option Int × Option Int × Option Int × Option Int × Bool) :=
  let columns := match c._columns with
    | none => []
    | some l => l
  let types := match c._types with
    | none => []
    | some l => l
  (columns.zip types).map fun nt => (nt.1, nt.2, none, none, none, none, true)

/-- The close method: disconnects the client (an external effect) and marks
the cursor closed. -/
def Cursor.close (c : Cursor) : Cursor := { c with _state := CState.CURSOR_CLOSED }

def Cursor.set_stream_results (c : Cursor) (stream_results : Bool) (max_row_buffer : Int) : Cursor :=
  { c with _stream_results := stream_results, _max_row_buffer := max_row_buffer }

def Cursor.set_settings (c : Cursor) (settings : Option Settings) : Cursor :=
  { c with _settings := settings }

def Cursor.set_types_check (c : Cursor) (types_check : Bool) : Cursor :=
  { c with _types_check := types_check }

/-- The set_external_table method: plain dict assignment, so the last
registration under a given name wins. -/
def Cursor.set_external_table (c : Cursor) (name : String) (struc : TableStructure) (data : List Row) : Cursor :=
  { c with _external_tables := dictSet c._external_tables name (struc, data) }

def Cursor._begin_query (c : Cursor) : Cursor := { c with _state := CState.RUNNING }

def Cursor._end_query (c : Cursor) : Cursor := { c with _state := CState.FINISHED }

def Cursor._check_cursor_closed (c : Cursor) : Except PyErr Unit :=
  if c._state = CState.CURSOR_CLOSED then Except.error (PyErr.adapterError "Cursor is closed")
  else Except.ok ()

def Cursor._check_query_started (c : Cursor) : Except PyErr Unit :=
  if c._state = CState.NONE then Except.error (PyErr.adapterError "No query yet")
  else Except.ok ()

/-- Python tuple unpacking of the pattern name, (structure, data) against a
string, as happens in the comprehension in _prepare, which iterates the
_external_tables dict and therefore receives its keys.  Iterating a string
yields its characters as length-1 strings; the outer pattern needs exactly
two items, and the inner pattern then needs the second item, a length-1
string, to yield exactly two items, which never holds. -/
def unpackNameStructData (key : String) : Except PyErr (String × String × String) :=
  match key.data with
  | [c1, c2] =>
    match (String.singleton c2).data with
    | [x, y] => Except.ok (String.singleton c1, String.singleton x, String.singleton y)
    | [_] => Except.error (PyErr.valueError "need more than 1 value to unpack")
    | _ => Except.error (PyErr.valueError "unpack: wrong number of values")
  | _ => Except.error (PyErr.valueError "unpack: wrong number of values")

/-- Left-to-right evaluation of a list comprehension whose body can raise:
the first raise aborts the whole comprehension. -/
def mapExcept {α β : Type} (f : α → Except PyErr β) : List α → Except PyErr (List β)
  | [] => Except.ok []
  | a :: as =>
    match f a with
    | Except.error e => Except.error e
    | Except.ok b =>
      match mapExcept f as with
      | Except.error e => Except.error e
      | Except.ok bs => Except.ok (b :: bs)

/-- Which client entry point _prepare selects. -/
inductive EntryPoint where
  | clientExecute
  | clientExecuteIter
deriving DecidableEq

/-- The keyword arguments _prepare assembles for the client call.  The
external_tables entry holds the records the comprehension would build; with
the key-unpacking bug those components are the unpacked key characters. -/
structure ExecuteKwargs where
  settings : Option Settings
  external_tables : Option (List (String × String × String))
  types_check : Bool
deriving DecidableEq

/-- The value of the Python expression self._settings or ... : a falsy
settings dict (None, or empty) is replaced. -/
def settingsOrEmpty : Option Settings → Settings
  | none => []
  | some d => if d.isEmpty then [] else d

/-- The _prepare method.  The external-tables comprehension runs first and
iterates the dict itself (not dict.items()), so each iteration unpacks a
string key and raises ValueError whenever the dict is nonempty; an empty
comprehension result becomes None via the trailing or-None.  In streaming
mode the settings dict is then replaced when falsy and max_block_size is
written into it before the kwargs are read off the cursor. -/
def Cursor._prepare (c : Cursor) : Except PyErr (EntryPoint × ExecuteKwargs) × Cursor :=
  match mapExcept unpackNameStructData (c._external_tables.map Prod.fst) with
  | Except.error e => (Except.error e, c)
  | Except.ok recs =>
    if c._stream_results then
      let s2 := some (dictSet (settingsOrEmpty c._settings) "max_block_size" c._max_row_buffer)
      let c2 := { c with _settings := s2 }
      (Except.ok (EntryPoint.clientExecuteIter,
        { settings := c2._settings,
          external_tables := if recs.isEmpty then none else some recs,
          types_check := c2._types_check }), c2)
    else
      (Except.ok (EntryPoint.clientExecute,
        { settings := c._settings,
          external_tables := if recs.isEmpty then none else some recs,
          types_check := c._types_check }), c)

/-- Helper for the tail of _process_response: split columns_with_types when
truthy, then store the row source. -/
def Cursor.applyCwtRows (c : Cursor) (cwt : CWT) (rs : RowsState) : Cursor :=
  if cwt.isEmpty then { c with _columns := some [], _types := some [], _rows := rs }
  else { c with _columns := some (cwt.map Prod.fst), _types := some (cwt.map Prod.snd), _rows := rs }

/-- The _process_response method.  With executemany=True the raw response is
stored into _rowcount and the local response becomes None; a falsy response
sets columns, types and rows to empty lists (note: a Python list even in
streaming mode).  Otherwise the streaming branch pulls one element from the
iterator as the header and keeps the rest, and the buffered branch unpacks
the (rows, columns_with_types) pair.  The remaining constructor cases can
only be reached when the client breaks its section-6 contract by returning
a value of the wrong shape to the chosen entry point; they are modelled as
the TypeError Python raises when unpacking or iterating such a value.
This definition is the part of _process_response after its first two
statements; _process_response below performs those two statements (the
executemany prologue) and then runs this rest. -/
def processResponseRest (c1 : Cursor) (r1 : PyResponse) : Except PyErr Unit × Cursor :=
  if r1.truthy = false then
    (Except.ok (), { c1 with _columns := some [], _types := some [], _rows := RowsState.buf [] })
  else if c1._stream_results then
    match r1 with
    | PyResponse.iter [] => (Except.error PyErr.stopIteration, c1)
    | PyResponse.iter (StreamElem.hdr cwt :: rest) =>
      (Except.ok (), c1.applyCwtRows cwt (RowsState.stream rest))
    | PyResponse.iter (StreamElem.row r :: rest) =>
      if r.isEmpty then
        (Except.ok (), { c1 with _columns := some [], _types := some [], _rows := RowsState.stream rest })
      else (Except.error (PyErr.typeError "zip argument is not iterable"), c1)
    | _ => (Except.error (PyErr.typeError "object is not an iterator"), c1)
  else
    match r1 with
    | PyResponse.pair rows cwt => (Except.ok (), c1.applyCwtRows cwt (RowsState.buf rows))
    | _ => (Except.error (PyErr.typeError "cannot unpack response"), c1)

/-- The _process_response method: with executemany=True the raw response is
stored into _rowcount and the local response variable becomes None before
the rest of the method runs. -/
def Cursor._process_response (c : Cursor) (response : PyResponse) (executemany : Bool) :
    Except PyErr Unit × Cursor :=
  if executemany then processResponseRest { c with _rowcount := response } PyResponse.pyNone
  else processResponseRest c response

/-- Everything the adapter hands to the chosen client entry point. -/
structure ClientCall where
  operation : String
  params : String
  with_column_types : Bool
  kwargs : ExecuteKwargs
  entry : EntryPoint

/-- The underlying client, as an oracle: it either returns a response or
raises its single native error type, represented by its message. -/
abbrev ClientFun := ClientCall → Except String PyResponse

/-- The execute method.  Only a DriverError from the client call is wrapped
into OperationalError; an exception raised while preparing (in particular
the ValueError from the external-table comprehension) propagates unchanged,
with the state left at RUNNING. -/
def Cursor.execute (c : Cursor) (operation params : String) (client : ClientFun) :
    Except PyErr Unit × Cursor :=
  if c._state = CState.CURSOR_CLOSED then (Except.error (PyErr.adapterError "Cursor is closed"), c)
  else
    let cr := c._begin_query
    match cr._prepare with
    | (Except.error e, c2) => (Except.error e, c2)
    | (Except.ok (entry, kwargs), c2) =>
      match client { operation := operation, params := params, with_column_types := true,
                     kwargs := kwargs, entry := entry } with
      | Except.error orig => (Except.error (PyErr.operationalError orig), c2)
      | Except.ok response =>
        match c2._process_response response false with
        | (Except.error e, c3) => (Except.error e, c3)
        | (Except.ok _, c3) => (Except.ok (), c3._end_query)

/-- The executemany method: identical to execute except that no
with_column_types flag is passed and the response is processed with
executemany=True. -/
def Cursor.executemany (c : Cursor) (operation seq_of_parameters : String) (client : ClientFun) :
    Except PyErr Unit × Cursor :=
  if c._state = CState.CURSOR_CLOSED then (Except.error (PyErr.adapterError "Cursor is closed"), c)
  else
    let cr := c._begin_query
    match cr._prepare with
    | (Except.error e, c2) => (Except.error e, c2)
    | (Except.ok (entry, kwargs), c2) =>
      match client { operation := operation, params := seq_of_parameters,
                     with_column_types := false, kwargs := kwargs, entry := entry } with
      | Except.error orig => (Except.error (PyErr.operationalError orig), c2)
      | Except.ok response =>
        match c2._process_response response true with
        | (Except.error e, c3) => (Except.error e, c3)
        | (Except.ok _, c3) => (Except.ok (), c3._end_query)

/-- The fetchone method.  Streaming mode pulls one element with
next(it, None); buffered mode pops the head of the list, where a None row
source is falsy and yields None.  Mode/representation mismatches (possible
only if the caller flips the streaming flag between execute and fetch) are
the TypeError or AttributeError Python would raise. -/
def Cursor.fetchone (c : Cursor) : Except PyErr Fetched × Cursor :=
  match c._check_query_started with
  | Except.error e => (Except.error e, c)
  | Except.ok _ =>
    if c._stream_results then
      match c._rows with
      | RowsState.stream [] => (Except.ok Fetched.fnone, c)
      | RowsState.stream (e :: rest) =>
        (Except.ok e.toFetched, { c with _rows := RowsState.stream rest })
      | RowsState.buf _ => (Except.error (PyErr.typeError "list object is not an iterator"), c)
      | RowsState.pynone => (Except.error (PyErr.typeError "NoneType object is not an iterator"), c)
    else
      match c._rows with
      | RowsState.buf [] => (Except.ok Fetched.fnone, c)
      | RowsState.buf (r :: rest) =>
        (Except.ok (Fetched.frow r), { c with _rows := RowsState.buf rest })
      | RowsState.pynone => (Except.ok Fetched.fnone, c)
      | RowsState.stream _ => (Except.error (PyErr.attributeError "iterator object has no attribute pop"), c)

/-- Python list slice l[:n] for an int n; a negative n counts from the end. -/
def pySliceStop {α : Type} (l : List α) (n : Int) : List α :=
  if n < 0 then l.take ((l.length : Int) + n).toNat else l.take n.toNat

/-- Python list slice l[n:] for an int n; a negative n counts from the end. -/
def pySliceStart {α : Type} (l : List α) (n : Int) : List α :=
  if n < 0 then l.drop ((l.length : Int) + n).toNat else l.drop n.toNat

/-- The fetchmany method.  The default size is arraysize.  Streaming mode
uses islice, which validates the stop argument before touching the iterable
and rejects a negative one with ValueError; buffered mode slices the list
with Python slice semantics, where a negative size keeps everything but the
last -size rows. -/
def Cursor.fetchmany (c : Cursor) (size? : Option Int) : Except PyErr (List Fetched) × Cursor :=
  match c._check_query_started with
  | Except.error e => (Except.error e, c)
  | Except.ok _ =>
    let size : Int := match size? with
      | none => c.arraysize
      | some s => s
    if c._stream_results then
      if size < 0 then
        (Except.error (PyErr.valueError "Stop argument for islice() must be None or an integer: 0 <= x <= maxsize."), c)
      else
        match c._rows with
        | RowsState.stream l =>
          (Except.ok ((l.take size.toNat).map StreamElem.toFetched),
           { c with _rows := RowsState.stream (l.drop size.toNat) })
        | RowsState.buf l =>
          (Except.ok ((l.take size.toNat).map Fetched.frow), c)
        | RowsState.pynone => (Except.error (PyErr.typeError "NoneType object is not iterable"), c)
    else
      match c._rows with
      | RowsState.buf l =>
        (Except.ok ((pySliceStop l size).map Fetched.frow),
         { c with _rows := RowsState.buf (pySliceStart l size) })
      | RowsState.stream _ => (Except.error (PyErr.typeError "iterator object is not subscriptable"), c)
      | RowsState.pynone => (Except.error (PyErr.typeError "NoneType object is not subscriptable"), c)

/-- The fetchall method.  Streaming mode drains the iterator; buffered mode
hands over the list and leaves a fresh empty one.  With a None row source
the buffered branch returns None itself. -/
def Cursor.fetchall (c : Cursor) : Except PyErr FetchAllVal × Cursor :=
  match c._check_query_started with
  | Except.error e => (Except.error e, c)
  | Except.ok _ =>
    if c._stream_results then
      match c._rows with
      | RowsState.stream l =>
        (Except.ok (FetchAllVal.vlist (l.map StreamElem.toFetched)), { c with _rows := RowsState.stream [] })
      | RowsState.buf l => (Except.ok (FetchAllVal.vlist (l.map Fetched.frow)), c)
      | RowsState.pynone => (Except.error (PyErr.typeError "NoneType object is not iterable"), c)
    else
      match c._rows with
      | RowsState.buf l =>
        (Except.ok (FetchAllVal.vlist (l.map Fetched.frow)), { c with _rows := RowsState.buf [] })
      | RowsState.pynone => (Except.ok FetchAllVal.vnone, { c with _rows := RowsState.buf [] })
      | RowsState.stream l => (Except.ok (FetchAllVal.viter l), { c with _rows := RowsState.buf [] })

/-- Every attribute a Cursor instance has: the class methods and properties
plus the instance attributes assigned in __init__ and _reset_state,
transcribed from the source.  There is no disconnect attribute. -/
def cursorAttrNames : List String :=
  ["States", "_states", "description", "rowcount", "close", "execute",
   "executemany", "fetchone", "fetchmany", "fetchall", "setinputsizes",
   "setoutputsize", "set_stream_results", "set_settings", "set_types_check",
   "set_external_table", "_prepare", "_process_response", "_reset_state",
   "_begin_query", "_end_query", "_check_cursor_closed",
   "_check_query_started", "_client", "arraysize", "_state", "_columns",
   "_types", "_rows", "_rowcount", "_stream_results", "_max_row_buffer",
   "_settings", "_external_tables", "_types_check"]

/-- Python attribute lookup on a Cursor instance. -/
def Cursor.getattrCheck (_c : Cursor) (name : String) : Except PyErr Unit :=
  if name ∈ cursorAttrNames then Except.ok ()
  else Except.error (PyErr.attributeError ("Cursor object has no attribute " ++ name))

/-- The Connection object. -/
structure Connection where
  dsn : Option String
  user : Option String
  password : Option String
  host : Option String
  database : Option String
  cursors : List Cursor

/-- The loop body of Connection.close: for each issued cursor it looks up
cursor.disconnect, which stops at the attribute lookup. -/
def closeLoop : List Cursor → Except PyErr Unit
  | [] => Except.ok ()
  | cur :: rest =>
    match cur.getattrCheck "disconnect" with
    | Except.error e => Except.error e
    | Except.ok _ => closeLoop rest

/-- The Connection.close method. -/
def Connection.close (conn : Connection) : Except PyErr Unit :=
  closeLoop conn.cursors

/-! Apparatus for stating the fetch-sequence claims. -/

/-- One fetch call in a caller's sequence: fetchone, fetchmany with an
explicit non-negative size, or fetchall. -/
inductive FetchOp where
  | one
  | many (k : Nat)
  | all
deriving DecidableEq

/-- The rows a single fetch result contributes to the concatenation of all
fetch results: a None result contributes nothing. -/
def Fetched.asList : Fetched → List Fetched
  | Fetched.fnone => []
  | f => [f]

/-- Run one fetch call and return what it contributed plus the cursor
afterwards; fetchall is expected to produce a list here. -/
def fetchStep (c : Cursor) : FetchOp → Except PyErr (List Fetched × Cursor)
  | FetchOp.one =>
    match c.fetchone with
    | (Except.ok f, c2) => Except.ok (f.asList, c2)
    | (Except.error e, _) => Except.error e
  | FetchOp.many k =>
    match c.fetchmany (some (k : Int)) with
    | (Except.ok l, c2) => Except.ok (l, c2)
    | (Except.error e, _) => Except.error e
  | FetchOp.all =>
    match c.fetchall with
    | (Except.ok (FetchAllVal.vlist l), c2) => Except.ok (l, c2)
    | (Except.ok _, _) => Except.error (PyErr.typeError "fetchall did not produce a list")
    | (Except.error e, _) => Except.error e

/-- Run a sequence of fetch calls, concatenating their results. -/
def runFetches (c : Cursor) : List FetchOp → Except PyErr (List Fetched × Cursor)
  | [] => Except.ok ([], c)
  | op :: ops =>
    match fetchStep c op with
    | Except.error e => Except.error e
    | Except.ok (l, c2) =>
      match runFetches c2 ops with
      | Except.error e => Except.error e
      | Except.ok (l2, c3) => Except.ok (l ++ l2, c3)

/-- Call fetchone n times, collecting the n results in order. -/
def fetchoneTimesE (c : Cursor) : Nat → Except PyErr (List Fetched × Cursor)
  | 0 => Except.ok ([], c)
  | n + 1 =>
    match c.fetchone with
    | (Except.error e, _) => Except.error e
    | (Except.ok f, c2) =>
      match fetchoneTimesE c2 n with
      | Except.error e => Except.error e
      | Except.ok (l, c3) => Except.ok (f :: l, c3)

/-- The rows still sitting in the cursor's row source, as fetch values. -/
def Cursor.remFetched (c : Cursor) : List Fetched :=
  match c._rows with
  | RowsState.buf l => l.map Fetched.frow
  | RowsState.stream l => l.map StreamElem.toFetched
  | RowsState.pynone => []

/-- A cursor on which fetch calls are in scope: a query has been run and the
row source representation matches the streaming flag. -/
def Ready (c : Cursor) : Prop :=
  c._state ≠ CState.NONE ∧
  ((c._stream_results = false ∧ ∃ l, c._rows = RowsState.buf l) ∨
   (c._stream_results = true ∧ ∃ l, c._rows = RowsState.stream l))

/-- A fresh cursor running one successful select through execute: buffered
mode receives the (rows, columns_with_types) pair, streaming mode is
configured first and receives the header-then-rows iterator. -/
def selectExec (stream : Bool) (R : List Row) (cwt : CWT) : Except PyErr Unit × Cursor :=
  if stream then
    (Cursor.initial.set_stream_results true 100).execute "q" "p"
      (fun _ => Except.ok (PyResponse.iter (StreamElem.hdr cwt :: R.map StreamElem.row)))
  else
    Cursor.initial.execute "q" "p" (fun _ => Except.ok (PyResponse.pair R cwt))

/-! Object-identity view of settings staging, for the in-place mutation in
_prepare.  Settings dicts live in a heap and both the caller and the cursor
hold references, so that mutating the dict through the cursor is visible
through the caller's reference as well. -/

abbrev Ref := Nat

structure Heap where
  dicts : List Settings
deriving DecidableEq

def Heap.get (h : Heap) (r : Ref) : Settings := h.dicts.getD r []

def Heap.setRef (h : Heap) (r : Ref) (d : Settings) : Heap := { dicts := h.dicts.set r d }

def Heap.alloc (h : Heap) (d : Settings) : Heap × Ref :=
  ({ dicts := h.dicts ++ [d] }, h.dicts.length)

/-- The settings-related cursor attributes, with _settings as a reference. -/
structure RefCursor where
  _stream_results : Bool
  _max_row_buffer : Int
  _settings : Option Ref
deriving DecidableEq

def RefCursor.set_settings (c : RefCursor) (r : Option Ref) : RefCursor :=
  { c with _settings := r }

def RefCursor.set_stream_results (c : RefCursor) (b : Bool) (m : Int) : RefCursor :=
  { c with _stream_results := b, _max_row_buffer := m }

/-- The settings lines of _prepare at the object level: when streaming, the
expression self._settings or-default replaces a falsy dict (None, or an
empty referent) by a freshly allocated one, and max_block_size is then
written into the referent in place. -/
def RefCursor.prepareSettings (c : RefCursor) (h : Heap) : RefCursor × Heap :=
  if c._stream_results then
    let step : RefCursor × Heap × Ref :=
      match c._settings with
      | some r0 =>
        if (h.get r0).isEmpty then
          let ar := h.alloc []
          ({ c with _settings := some ar.2 }, ar.1, ar.2)
        else (c, h, r0)
      | none =>
        let ar := h.alloc []
        ({ c with _settings := some ar.2 }, ar.1, ar.2)
    let c2 := step.1
    let h2 := step.2.1
    let r := step.2.2
    (c2, h2.setRef r (dictSet (h2.get r) "max_block_size" c._max_row_buffer))
  else (c, h)

/-! Concrete inputs used by counterexamples and witnesses. -/

/-- A client that always succeeds with an empty buffered result. -/
def clOk : ClientFun := fun _ => Except.ok (PyResponse.pair [] [])

/-- A cursor with one registered external table. -/
def c1ex : Cursor := Cursor.initial.set_external_table "tbl" [("x", "Int32")] [[1]]

/-- A finished buffered cursor holding two rows. -/
def c3buf : Cursor :=
  { Cursor.initial with _state := CState.FINISHED, _rows := RowsState.buf [[1], [2]] }

/-- A finished streaming cursor holding one pending row. -/
def c3s : Cursor :=
  { Cursor.initial with
    _state := CState.FINISHED, _stream_results := true,
    _rows := RowsState.stream [StreamElem.row [1]] }

/-- A cursor after one successful buffered select returning one row. -/
def c6fin : Cursor :=
  (Cursor.initial.execute "q1" "p" (fun _ => Except.ok (PyResponse.pair [[7]] [("a", "Int32")]))).2

/-- The same cursor after a second execute on which the client raises. -/
def c6fail : Except PyErr Unit × Cursor :=
  c6fin.execute "q2" "p" (fun _ => Except.error "server gone")

/-- A client that always raises the driver error. -/
def clBoom : ClientFun := fun _ => Except.error "boom"

/-- A client returning a streaming response with an empty header. -/
def cl9 : ClientFun := fun _ => Except.ok (PyResponse.iter [StreamElem.hdr []])

/-- A cursor with caller settings staged and streaming enabled. -/
def c9s : Cursor := (Cursor.initial.set_settings (some [("a", 1)])).set_stream_results true 42

/-- A cursor known to run buffered. -/
def c9b : Cursor := Cursor.initial

/-- A client whose call always fails with the driver error. -/
def clGone : ClientFun := fun _ => Except.error "server gone"

/-! Lemmas about the embedded operations. -/

theorem unpackNameStructData_fails (key : String) :
    ∃ m, unpackNameStructData key = Except.error (PyErr.valueError m) := by
  obtain ⟨l⟩ := key
  rcases l with _ | ⟨a, _ | ⟨b, _ | ⟨d, t⟩⟩⟩ <;> exact ⟨_, rfl⟩

theorem mapExcept_keys_fail (k : String) (ks : List String) :
    ∃ m, mapExcept unpackNameStructData (k :: ks) = Except.error (PyErr.valueError m) := by
  obtain ⟨m, hm⟩ := unpackNameStructData_fails k
  exact ⟨m, by simp [mapExcept, hm]⟩

theorem prepare_error_of_map (c : Cursor) (m : String)
    (hmap : mapExcept unpackNameStructData (c._external_tables.map Prod.fst) =
      Except.error (PyErr.valueError m)) :
    c._prepare = (Except.error (PyErr.valueError m), c) := by
  unfold Cursor._prepare
  rw [hmap]

theorem prepare_shape (c : Cursor) :
    ∃ se, (c._prepare).2 = { c with _settings := se } := by
  unfold Cursor._prepare
  cases h : mapExcept unpackNameStructData (c._external_tables.map Prod.fst) with
  | error e => exact ⟨c._settings, rfl⟩
  | ok recs =>
    dsimp only
    by_cases hs : c._stream_results = true
    · rw [if_pos hs]
      exact ⟨_, rfl⟩
    · rw [if_neg hs]
      exact ⟨c._settings, rfl⟩

theorem prepare_buffered_id (c : Cursor) (hs : c._stream_results = false) :
    (c._prepare).2 = c := by
  unfold Cursor._prepare
  cases h : mapExcept unpackNameStructData (c._external_tables.map Prod.fst) with
  | error e => rfl
  | ok recs => simp [hs]

theorem prepare_stream_settings (c : Cursor) (h0 : c._external_tables = [])
    (hs : c._stream_results = true) :
    ((c._prepare).2)._settings =
      some (dictSet (settingsOrEmpty c._settings) "max_block_size" c._max_row_buffer) := by
  simp [Cursor._prepare, h0, mapExcept, hs]

theorem prepare_ok_empty (c : Cursor) (h0 : c._external_tables = []) :
    ∃ ep kw, (c._prepare).1 = Except.ok (ep, kw) ∧ kw.external_tables = none := by
  by_cases hs : c._stream_results <;> simp [Cursor._prepare, h0, mapExcept, hs] <;>
    exact ⟨_, _, ⟨rfl, rfl⟩, rfl⟩

theorem processRest_shape (c1 : Cursor) (r1 : PyResponse) :
    ∃ co ty ro, (processResponseRest c1 r1).2 =
      { c1 with _columns := co, _types := ty, _rows := ro } := by
  unfold processResponseRest Cursor.applyCwtRows
  split <;> (try split) <;> (try split) <;> (try split) <;> exact ⟨_, _, _, rfl⟩

theorem process_shape (c : Cursor) (resp : PyResponse) (em : Bool) :
    ∃ co ty ro rc, (c._process_response resp em).2 =
      { c with _columns := co, _types := ty, _rows := ro, _rowcount := rc } := by
  unfold Cursor._process_response
  cases em with
  | false =>
    obtain ⟨co, ty, ro, h⟩ := processRest_shape c resp
    exact ⟨co, ty, ro, c._rowcount, by simp [h]⟩
  | true =>
    obtain ⟨co, ty, ro, h⟩ := processRest_shape { c with _rowcount := resp } PyResponse.pyNone
    exact ⟨co, ty, ro, resp, by simp [h]⟩

theorem processRest_error_id (c1 : Cursor) (r1 : PyResponse) (e : PyErr) :
    (processResponseRest c1 r1).1 = Except.error e → (processResponseRest c1 r1).2 = c1 := by
  unfold processResponseRest Cursor.applyCwtRows
  split <;> (try split) <;> (try split) <;> (try split) <;> simp

theorem execute_unfold (c : Cursor) (op ps : String) (client : ClientFun)
    (hcl : c._state ≠ CState.CURSOR_CLOSED) :
    c.execute op ps client =
      (match (c._begin_query)._prepare with
      | (Except.error e, c2) => (Except.error e, c2)
      | (Except.ok (entry, kwargs), c2) =>
        match client { operation := op, params := ps, with_column_types := true,
                       kwargs := kwargs, entry := entry } with
        | Except.error orig => (Except.error (PyErr.operationalError orig), c2)
        | Except.ok response =>
          match c2._process_response response false with
          | (Except.error e, c3) => (Except.error e, c3)
          | (Except.ok _, c3) => (Except.ok (), c3._end_query)) := by
  unfold Cursor.execute
  rw [if_neg hcl]

theorem executemany_unfold (c : Cursor) (op ps : String) (client : ClientFun)
    (hcl : c._state ≠ CState.CURSOR_CLOSED) :
    c.executemany op ps client =
      (match (c._begin_query)._prepare with
      | (Except.error e, c2) => (Except.error e, c2)
      | (Except.ok (entry, kwargs), c2) =>
        match client { operation := op, params := ps, with_column_types := false,
                       kwargs := kwargs, entry := entry } with
      | Except.error orig => (Except.error (PyErr.operationalError orig), c2)
      | Except.ok response =>
        match c2._process_response response true with
        | (Except.error e, c3) => (Except.error e, c3)
        | (Except.ok _, c3) => (Except.ok (), c3._end_query)) := by
  unfold Cursor.executemany
  rw [if_neg hcl]

theorem execute_error_keeps (c : Cursor) (op ps : String) (client : ClientFun) (e : PyErr)
    (hcl : c._state ≠ CState.CURSOR_CLOSED)
    (he : (c.execute op ps client).1 = Except.error e) :
    ((c.execute op ps client).2)._state = CState.RUNNING ∧
    ((c.execute op ps client).2)._rows = c._rows ∧
    ((c.execute op ps client).2)._columns = c._columns ∧
    ((c.execute op ps client).2)._types = c._types := by
  rw [execute_unfold c op ps client hcl] at he ⊢
  obtain ⟨se, hse⟩ := prepare_shape (c._begin_query)
  rcases hp : (c._begin_query)._prepare with ⟨pres, c2⟩
  rw [hp] at he hse
  dsimp only at hse
  cases pres with
  | error e2 =>
    subst hse
    simp [Cursor._begin_query]
  | ok pk =>
    rcases pk with ⟨entry, kwargs⟩
    dsimp only at he ⊢
    cases hcall : client { operation := op, params := ps, with_column_types := true,
                           kwargs := kwargs, entry := entry } with
    | error orig =>
      rw [hcall] at he
      subst hse
      simp [Cursor._begin_query]
    | ok resp =>
      rw [hcall] at he
      dsimp only at he ⊢
      rcases hpr : c2._process_response resp false with ⟨prres, c3⟩
      rw [hpr] at he
      cases prres with
      | ok u => simp at he
      | error e3 =>
        have hrr : c2._process_response resp false = processResponseRest c2 resp := rfl
        rw [hrr] at hpr
        have h31 : (processResponseRest c2 resp).1 = Except.error e3 := by rw [hpr]
        have h32 : c3 = c2 := by
          have h4 := processRest_error_id c2 resp e3 h31
          rw [hpr] at h4
          exact h4
        subst h32
        subst hse
        simp [Cursor._begin_query]

theorem execute_ok_finished (c : Cursor) (op ps : String) (client : ClientFun)
    (he : (c.execute op ps client).1 = Except.ok ()) :
    ((c.execute op ps client).2)._state = CState.FINISHED := by
  by_cases hcl : c._state = CState.CURSOR_CLOSED
  · unfold Cursor.execute at he
    rw [if_pos hcl] at he
    simp at he
  · rw [execute_unfold c op ps client hcl] at he ⊢
    rcases hp : (c._begin_query)._prepare with ⟨pres, c2⟩
    rw [hp] at he
    cases pres with
    | error e2 => simp at he
    | ok pk =>
      rcases pk with ⟨entry, kwargs⟩
      dsimp only at he ⊢
      cases hcall : client { operation := op, params := ps, with_column_types := true,
                             kwargs := kwargs, entry := entry } with
      | error orig =>
        rw [hcall] at he
        simp at he
      | ok resp =>
        rw [hcall] at he
        dsimp only at he ⊢
        rcases hpr : c2._process_response resp false with ⟨prres, c3⟩
        rw [hpr] at he
        cases prres with
        | error e3 => simp at he
        | ok u => simp [Cursor._end_query]

theorem execute_keeps_options (c : Cursor) (op ps : String) (client : ClientFun) :
    ((c.execute op ps client).2)._external_tables = c._external_tables ∧
    ((c.execute op ps client).2)._types_check = c._types_check ∧
    ((c.execute op ps client).2)._stream_results = c._stream_results ∧
    ((c.execute op ps client).2)._max_row_buffer = c._max_row_buffer ∧
    ((c.execute op ps client).2).arraysize = c.arraysize := by
  by_cases hcl : c._state = CState.CURSOR_CLOSED
  · unfold Cursor.execute
    rw [if_pos hcl]
    exact ⟨rfl, rfl, rfl, rfl, rfl⟩
  · rw [execute_unfold c op ps client hcl]
    obtain ⟨se, hse⟩ := prepare_shape (c._begin_query)
    rcases hp : (c._begin_query)._prepare with ⟨pres, c2⟩
    rw [hp] at hse
    dsimp only at hse
    cases pres with
    | error e2 =>
      subst hse
      simp [Cursor._begin_query]
    | ok pk =>
      rcases pk with ⟨entry, kwargs⟩
      dsimp only
      cases hcall : client { operation := op, params := ps, with_column_types := true,
                             kwargs := kwargs, entry := entry } with
      | error orig =>
        subst hse
        simp [Cursor._begin_query]
      | ok resp =>
        dsimp only
        obtain ⟨co, ty, ro, rc, hpr2⟩ := process_shape c2 resp false
        rcases hpr : c2._process_response resp false with ⟨prres, c3⟩
        rw [hpr] at hpr2
        dsimp only at hpr2
        cases prres with
        | error e3 =>
          subst hpr2
          subst hse
          simp [Cursor._begin_query]
        | ok u =>
          subst hpr2
          subst hse
          simp [Cursor._begin_query, Cursor._end_query]

theorem executemany_keeps_options (c : Cursor) (op ps : String) (client : ClientFun) :
    ((c.executemany op ps client).2)._external_tables = c._external_tables ∧
    ((c.executemany op ps client).2)._types_check = c._types_check ∧
    ((c.executemany op ps client).2)._stream_results = c._stream_results ∧
    ((c.executemany op ps client).2)._max_row_buffer = c._max_row_buffer ∧
    ((c.executemany op ps client).2).arraysize = c.arraysize := by
  by_cases hcl : c._state = CState.CURSOR_CLOSED
  · unfold Cursor.executemany
    rw [if_pos hcl]
    exact ⟨rfl, rfl, rfl, rfl, rfl⟩
  · rw [executemany_unfold c op ps client hcl]
    obtain ⟨se, hse⟩ := prepare_shape (c._begin_query)
    rcases hp : (c._begin_query)._prepare with ⟨pres, c2⟩
    rw [hp] at hse
    dsimp only at hse
    cases pres with
    | error e2 =>
      subst hse
      simp [Cursor._begin_query]
    | ok pk =>
      rcases pk with ⟨entry, kwargs⟩
      dsimp only
      cases hcall : client { operation := op, params := ps, with_column_types := false,
                             kwargs := kwargs, entry := entry } with
      | error orig =>
        subst hse
        simp [Cursor._begin_query]
      | ok resp =>
        dsimp only
        obtain ⟨co, ty, ro, rc, hpr2⟩ := process_shape c2 resp true
        rcases hpr : c2._process_response resp true with ⟨prres, c3⟩
        rw [hpr] at hpr2
        dsimp only at hpr2
        cases prres with
        | error e3 =>
          subst hpr2
          subst hse
          simp [Cursor._begin_query]
        | ok u =>
          subst hpr2
          subst hse
          simp [Cursor._begin_query, Cursor._end_query]

theorem execute_settings_buffered (c : Cursor) (op ps : String) (client : ClientFun)
    (hs : c._stream_results = false) :
    ((c.execute op ps client).2)._settings = c._settings := by
  by_cases hcl : c._state = CState.CURSOR_CLOSED
  · unfold Cursor.execute
    rw [if_pos hcl]
  · rw [execute_unfold c op ps client hcl]
    have hpid : ((c._begin_query)._prepare).2 = c._begin_query := prepare_buffered_id _ hs
    rcases hp : (c._begin_query)._prepare with ⟨pres, c2⟩
    rw [hp] at hpid
    dsimp only at hpid
    cases pres with
    | error e2 =>
      subst hpid
      rfl
    | ok pk =>
      rcases pk with ⟨entry, kwargs⟩
      dsimp only
      cases hcall : client { operation := op, params := ps, with_column_types := true,
                             kwargs := kwargs, entry := entry } with
      | error orig =>
        subst hpid
        rfl
      | ok resp =>
        dsimp only
        obtain ⟨co, ty, ro, rc, hpr2⟩ := process_shape c2 resp false
        rcases hpr : c2._process_response resp false with ⟨prres, c3⟩
        rw [hpr] at hpr2
        dsimp only at hpr2
        cases prres with
        | error e3 =>
          subst hpr2
          subst hpid
          rfl
        | ok u =>
          subst hpr2
          subst hpid
          rfl

theorem executemany_settings_buffered (c : Cursor) (op ps : String) (client : ClientFun)
    (hs : c._stream_results = false) :
    ((c.executemany op ps client).2)._settings = c._settings := by
  by_cases hcl : c._state = CState.CURSOR_CLOSED
  · unfold Cursor.executemany
    rw [if_pos hcl]
  · rw [executemany_unfold c op ps client hcl]
    have hpid : ((c._begin_query)._prepare).2 = c._begin_query := prepare_buffered_id _ hs
    rcases hp : (c._begin_query)._prepare with ⟨pres, c2⟩
    rw [hp] at hpid
    dsimp only at hpid
    cases pres with
    | error e2 =>
      subst hpid
      rfl
    | ok pk =>
      rcases pk with ⟨entry, kwargs⟩
      dsimp only
      cases hcall : client { operation := op, params := ps, with_column_types := false,
                             kwargs := kwargs, entry := entry } with
      | error orig =>
        subst hpid
        rfl
      | ok resp =>
        dsimp only
        obtain ⟨co, ty, ro, rc, hpr2⟩ := process_shape c2 resp true
        rcases hpr : c2._process_response resp true with ⟨prres, c3⟩
        rw [hpr] at hpr2
        dsimp only at hpr2
        cases prres with
        | error e3 =>
          subst hpr2
          subst hpid
          rfl
        | ok u =>
          subst hpr2
          subst hpid
          rfl

theorem execute_settings_streaming (c : Cursor) (op ps : String) (client : ClientFun)
    (hs : c._stream_results = true) (h0 : c._external_tables = [])
    (hcl : c._state ≠ CState.CURSOR_CLOSED) :
    ((c.execute op ps client).2)._settings =
      some (dictSet (settingsOrEmpty c._settings) "max_block_size" c._max_row_buffer) := by
  rw [execute_unfold c op ps client hcl]
  have hset : (((c._begin_query))._prepare).2._settings =
      some (dictSet (settingsOrEmpty c._settings) "max_block_size" c._max_row_buffer) :=
    prepare_stream_settings (c._begin_query) h0 hs
  obtain ⟨se, hse⟩ := prepare_shape (c._begin_query)
  rcases hp : (c._begin_query)._prepare with ⟨pres, c2⟩
  rw [hp] at hse hset
  dsimp only at hse hset
  cases pres with
  | error e2 => exact hset
  | ok pk =>
    rcases pk with ⟨entry, kwargs⟩
    dsimp only
    cases hcall : client { operation := op, params := ps, with_column_types := true,
                           kwargs := kwargs, entry := entry } with
    | error orig => exact hset
    | ok resp =>
      dsimp only
      obtain ⟨co, ty, ro, rc, hpr2⟩ := process_shape c2 resp false
      rcases hpr : c2._process_response resp false with ⟨prres, c3⟩
      rw [hpr] at hpr2
      dsimp only at hpr2
      cases prres with
      | error e3 =>
        subst hpr2
        exact hset
      | ok u =>
        subst hpr2
        exact hset

theorem dictSet_last_wins {α : Type} (l : List (String × α)) (k : String) (v1 v2 : α) :
    dictSet (dictSet l k v1) k v2 = dictSet l k v2 := by
  induction l with
  | nil => simp [dictSet]
  | cons kv rest ih =>
    obtain ⟨k0, v0⟩ := kv
    by_cases h : k0 = k <;> simp [dictSet, h, ih]

theorem pySlice_append {α : Type} (l : List α) (n : Int) :
    pySliceStop l n ++ pySliceStart l n = l := by
  unfold pySliceStop pySliceStart
  by_cases h : n < 0 <;> simp [h, List.take_append_drop]

theorem take_pred_eq_dropLast {α : Type} (l : List α) :
    l.take (l.length - 1) = l.dropLast := by
  induction l with
  | nil => rfl
  | cons a t ih =>
    cases t with
    | nil => rfl
    | cons b t2 =>
      simp only [List.length_cons, Nat.add_sub_cancel, List.take_succ_cons, List.dropLast]
      have : (b :: t2).length - 1 = t2.length := by simp
      rw [show (b :: t2).length = t2.length + 1 from by simp] at ih
      simpa using ih

theorem fetchStep_ready (c : Cursor) (op : FetchOp) (h : Ready c) :
    ∃ l c2, fetchStep c op = Except.ok (l, c2) ∧
      l ++ c2.remFetched = c.remFetched ∧ Ready c2 := by
  obtain ⟨hs, hmode⟩ := h
  cases op with
  | one =>
    rcases hmode with ⟨hf, l0, hr⟩ | ⟨hf, l0, hr⟩
    · cases l0 with
      | nil =>
        refine ⟨[], c, ?_, by simp, hs, Or.inl ⟨hf, [], hr⟩⟩
        simp [fetchStep, Cursor.fetchone, Cursor._check_query_started, hs, hf, hr, Fetched.asList]
      | cons r rest =>
        refine ⟨[Fetched.frow r], { c with _rows := RowsState.buf rest }, ?_, ?_, ?_⟩
        · simp [fetchStep, Cursor.fetchone, Cursor._check_query_started, hs, hf, hr, Fetched.asList]
        · simp [Cursor.remFetched, hr]
        · exact ⟨hs, Or.inl ⟨hf, rest, rfl⟩⟩
    · cases l0 with
      | nil =>
        refine ⟨[], c, ?_, by simp, hs, Or.inr ⟨hf, [], hr⟩⟩
        simp [fetchStep, Cursor.fetchone, Cursor._check_query_started, hs, hf, hr, Fetched.asList]
      | cons e0 rest =>
        refine ⟨e0.toFetched.asList, { c with _rows := RowsState.stream rest }, ?_, ?_, ?_⟩
        · simp [fetchStep, Cursor.fetchone, Cursor._check_query_started, hs, hf, hr]
        · cases e0 <;> simp [Cursor.remFetched, hr, StreamElem.toFetched, Fetched.asList]
        · exact ⟨hs, Or.inr ⟨hf, rest, rfl⟩⟩
  | many k =>
    have hk0 : ¬((k : Int) < 0) := not_lt.2 (Int.natCast_nonneg k)
    rcases hmode with ⟨hf, l0, hr⟩ | ⟨hf, l0, hr⟩
    · refine ⟨(pySliceStop l0 ((k : Nat) : Int)).map Fetched.frow,
             { c with _rows := RowsState.buf (pySliceStart l0 ((k : Nat) : Int)) }, ?_, ?_, ?_⟩
      · simp [fetchStep, Cursor.fetchmany, Cursor._check_query_started, hs, hf, hr]
      · rw [Cursor.remFetched, Cursor.remFetched]
        simp only [hr]
        rw [← List.map_append, pySlice_append]
      · exact ⟨hs, Or.inl ⟨hf, _, rfl⟩⟩
    · refine ⟨(l0.take k).map StreamElem.toFetched,
             { c with _rows := RowsState.stream (l0.drop k) }, ?_, ?_, ?_⟩
      · simp [fetchStep, Cursor.fetchmany, Cursor._check_query_started, hs, hf, hr, hk0]
      · rw [Cursor.remFetched, Cursor.remFetched]
        simp only [hr]
        rw [← List.map_append, List.take_append_drop]
      · exact ⟨hs, Or.inr ⟨hf, _, rfl⟩⟩
  | all =>
    rcases hmode with ⟨hf, l0, hr⟩ | ⟨hf, l0, hr⟩
    · refine ⟨l0.map Fetched.frow, { c with _rows := RowsState.buf [] }, ?_, ?_, ?_⟩
      · simp [fetchStep, Cursor.fetchall, Cursor._check_query_started, hs, hf, hr]
      · simp [Cursor.remFetched, hr]
      · exact ⟨hs, Or.inl ⟨hf, [], rfl⟩⟩
    · refine ⟨l0.map StreamElem.toFetched, { c with _rows := RowsState.stream [] }, ?_, ?_, ?_⟩
      · simp [fetchStep, Cursor.fetchall, Cursor._check_query_started, hs, hf, hr]
      · simp [Cursor.remFetched, hr]
      · exact ⟨hs, Or.inr ⟨hf, [], rfl⟩⟩

theorem fetchall_ready (c : Cursor) (h : Ready c) :
    (c.fetchall).1 = Except.ok (FetchAllVal.vlist c.remFetched) := by
  obtain ⟨hs, hmode⟩ := h
  rcases hmode with ⟨hf, l0, hr⟩ | ⟨hf, l0, hr⟩ <;>
    simp [Cursor.fetchall, Cursor._check_query_started, hs, hf, hr, Cursor.remFetched]

theorem runFetches_ready (c : Cursor) (ops : List FetchOp) (h : Ready c) :
    ∃ res c2, runFetches c ops = Except.ok (res, c2) ∧
      res ++ c2.remFetched = c.remFetched ∧ Ready c2 := by
  induction ops generalizing c with
  | nil => exact ⟨[], c, rfl, rfl, h⟩
  | cons op ops ih =>
    obtain ⟨l, c2, hstep, hsum, h2⟩ := fetchStep_ready c op h
    obtain ⟨res, c3, hrun, hsum2, h3⟩ := ih c2 h2
    refine ⟨l ++ res, c3, ?_, ?_, h3⟩
    · simp [runFetches, hstep, hrun]
    · rw [List.append_assoc, hsum2, hsum]

theorem selectExec_buffered (R : List Row) (cwt : CWT) :
    (selectExec false R cwt).1 = Except.ok () ∧
    ((selectExec false R cwt).2)._state = CState.FINISHED ∧
    ((selectExec false R cwt).2)._stream_results = false ∧
    ((selectExec false R cwt).2)._rows = RowsState.buf R ∧
    ((selectExec false R cwt).2)._columns = some (cwt.map Prod.fst) ∧
    ((selectExec false R cwt).2)._types = some (cwt.map Prod.snd) := by
  by_cases h : cwt = [] <;>
    simp [selectExec, Cursor.execute, Cursor.initial, Cursor._reset_state, Cursor._begin_query,
      Cursor._end_query, Cursor._prepare, mapExcept, Cursor._process_response, processResponseRest,
      PyResponse.truthy, Cursor.applyCwtRows, h]

theorem selectExec_streaming (R : List Row) (cwt : CWT) :
    (selectExec true R cwt).1 = Except.ok () ∧
    ((selectExec true R cwt).2)._state = CState.FINISHED ∧
    ((selectExec true R cwt).2)._stream_results = true ∧
    ((selectExec true R cwt).2)._rows = RowsState.stream (R.map StreamElem.row) ∧
    ((selectExec true R cwt).2)._columns = some (cwt.map Prod.fst) ∧
    ((selectExec true R cwt).2)._types = some (cwt.map Prod.snd) := by
  by_cases h : cwt = [] <;>
    simp [selectExec, Cursor.execute, Cursor.initial, Cursor._reset_state, Cursor._begin_query,
      Cursor._end_query, Cursor.set_stream_results, Cursor._prepare, mapExcept,
      Cursor._process_response, processResponseRest, PyResponse.truthy, Cursor.applyCwtRows,
      settingsOrEmpty, dictSet, h]

theorem fetchoneTimesE_stream (R : List Row) (c : Cursor)
    (hs : c._state ≠ CState.NONE) (hf : c._stream_results = true)
    (hr : c._rows = RowsState.stream (R.map StreamElem.row)) :
    fetchoneTimesE c R.length =
      Except.ok (R.map Fetched.frow, { c with _rows := RowsState.stream [] }) := by
  induction R generalizing c with
  | nil =>
    have : c = { c with _rows := RowsState.stream [] } := by
      simp at hr
      cases c
      simp_all
    rw [← this]
    rfl
  | cons r R ih =>
    have h1 : c.fetchone = (Except.ok (Fetched.frow r),
        { c with _rows := RowsState.stream (R.map StreamElem.row) }) := by
      simp [Cursor.fetchone, Cursor._check_query_started, hs, hf, hr, StreamElem.toFetched]
    have h2 := ih { c with _rows := RowsState.stream (R.map StreamElem.row) } hs hf rfl
    show fetchoneTimesE c (R.length + 1) = _
    rw [fetchoneTimesE, h1]
    dsimp only
    rw [h2]
    simp

theorem map_toFetched_row (R : List Row) :
    (R.map StreamElem.row).map StreamElem.toFetched = R.map Fetched.frow := by
  induction R with
  | nil => rfl
  | cons r t ih => simp [StreamElem.toFetched, ih]

theorem dictGet_dictSet {α : Type} (d : List (String × α)) (k : String) (v : α) :
    dictGet (dictSet d k v) k = some v := by
  induction d with
  | nil => simp [dictSet, dictGet]
  | cons kv rest ih =>
    obtain ⟨k0, v0⟩ := kv
    by_cases h : k0 = k <;> simp [dictSet, dictGet, h, ih]

theorem prepareSettings_buffered_id (c : RefCursor) (h : Heap)
    (hs : c._stream_results = false) :
    RefCursor.prepareSettings c h = (c, h) := by
  unfold RefCursor.prepareSettings
  rw [if_neg]
  rw [hs]
  simp

theorem toNat_pred (n : Nat) : ((n : Int) + (-1)).toNat = n - 1 := by omega

/-! Claim theorems. -/


/-- C1: execute is meant to pass every registered (name, structure, data)
external-table triple to the client, and None when none are registered.
The empty case holds, but the comprehension in _prepare iterates the dict
keys instead of its items, so whenever at least one external table is
registered the key unpacking raises ValueError and the client is never
called. -/
theorem C1_external_tables_pass_through (c0 c : Cursor) (op ps : String) (client : ClientFun)
    (h0 : c0._external_tables = [])
    (hne : c._external_tables ≠ [])
    (hcl : c._state ≠ CState.CURSOR_CLOSED) :
    (∃ ep kw, (c0._prepare).1 = Except.ok (ep, kw) ∧ kw.external_tables = none) ∧
    (∃ m, (c._prepare).1 = Except.error (PyErr.valueError m) ∧
          (c.execute op ps client).1 = Except.error (PyErr.valueError m)) := by
  refine ⟨prepare_ok_empty c0 h0, ?_⟩
  cases hE : c._external_tables with
  | nil => exact absurd hE hne
  | cons kv rest =>
    obtain ⟨m, hmap⟩ := mapExcept_keys_fail kv.1 (rest.map Prod.fst)
    have hmapc : mapExcept unpackNameStructData (c._external_tables.map Prod.fst) =
        Except.error (PyErr.valueError m) := by
      rw [hE]
      simpa using hmap
    have h1 := prepare_error_of_map c m hmapc
    have hmapb : mapExcept unpackNameStructData
        ((c._begin_query)._external_tables.map Prod.fst) = Except.error (PyErr.valueError m) :=
      hmapc
    have h2 := prepare_error_of_map (c._begin_query) m hmapb
    refine ⟨m, by rw [h1], ?_⟩
    rw [execute_unfold c op ps client hcl, h2]

/-- C1 witness at a concrete cursor with one registered external table. -/
theorem C1_external_tables_pass_through_witness :
    (∃ ep kw, ((Cursor.initial)._prepare).1 = Except.ok (ep, kw) ∧ kw.external_tables = none) ∧
    (∃ m, (c1ex._prepare).1 = Except.error (PyErr.valueError m) ∧
          (c1ex.execute "q" "p" clOk).1 = Except.error (PyErr.valueError m)) :=
  C1_external_tables_pass_through Cursor.initial c1ex "q" "p" clOk (by decide) (by decide) (by decide)

/-- The executemany run whose rowcount C2 examines. -/
def c2many : Except PyErr Unit × Cursor :=
  (Cursor.initial).executemany "ins" "params" (fun _ => Except.ok (PyResponse.count 2))

/-- C2: the claim says the rowcount property equals the driver-reported
count right after an executemany.  The property is hard-coded to -1 and
never reads the _rowcount attribute, which does hold the driver count 2
after this executemany, so the property misreports it. -/
theorem C2_rowcount_property_ignores_stored_count :
    (∀ c : Cursor, Cursor.rowcount c = -1) ∧
    c2many.1 = Except.ok () ∧
    (c2many.2)._rowcount = PyResponse.count 2 ∧
    Cursor.rowcount (c2many.2) = -1 ∧
    (-1 : Int) ≠ 2 :=
  ⟨fun _ => rfl, by decide, by decide, rfl, by decide⟩

/-- C3 counterexample: on a FINISHED buffered cursor holding rows [1], [2],
fetchmany with no size (arraysize -1) returns the first row, not an empty
result, and on a streaming cursor it raises ValueError from islice. -/
theorem C3_fetchmany_default_counterexample :
    (c3buf.fetchmany none).1 = Except.ok [Fetched.frow [1]] ∧
    Except.ok [Fetched.frow [1]] ≠ (Except.ok ([] : List Fetched) : Except PyErr (List Fetched)) ∧
    ((c3buf.fetchmany none).2)._rows = RowsState.buf [[2]] ∧
    (c3s.fetchmany none).1 = Except.error
      (PyErr.valueError "Stop argument for islice() must be None or an integer: 0 <= x <= maxsize.") :=
  ⟨by decide, by decide, by decide, by decide⟩

/-- C3 amended: with no explicit size fetchmany uses arraysize, which
defaults to -1; with that default the buffered slice rows[:-1] returns all
rows but the last and keeps only the last in the buffer, while streaming
mode raises ValueError because islice rejects a negative stop. -/
theorem C3_fetchmany_default_amended (cb cs : Cursor) (l : List Row)
    (hb1 : cb._state ≠ CState.NONE) (hb2 : cb._stream_results = false)
    (hb3 : cb._rows = RowsState.buf l) (hb4 : cb.arraysize = -1)
    (hs1 : cs._state ≠ CState.NONE) (hs2 : cs._stream_results = true)
    (hs4 : cs.arraysize = -1) :
    (cb.fetchmany none).1 = Except.ok (l.dropLast.map Fetched.frow) ∧
    ((cb.fetchmany none).2)._rows = RowsState.buf (l.drop (l.length - 1)) ∧
    (cs.fetchmany none).1 = Except.error
      (PyErr.valueError "Stop argument for islice() must be None or an integer: 0 <= x <= maxsize.") := by
  have hstop : pySliceStop l (-1) = l.dropLast := by
    unfold pySliceStop
    rw [if_pos (by decide)]
    rw [toNat_pred]
    exact take_pred_eq_dropLast l
  have hstart : pySliceStart l (-1) = l.drop (l.length - 1) := by
    unfold pySliceStart
    rw [if_pos (by decide)]
    rw [toNat_pred]
  refine ⟨?_, ?_, ?_⟩
  · simp [Cursor.fetchmany, Cursor._check_query_started, hb1, hb2, hb3, hb4, hstop]
  · simp [Cursor.fetchmany, Cursor._check_query_started, hb1, hb2, hb3, hb4, hstart]
  · simp [Cursor.fetchmany, Cursor._check_query_started, hs1, hs2, hs4]

/-- C3 amended witness at the concrete cursors of the counterexample. -/
theorem C3_fetchmany_default_amended_witness :
    (c3buf.fetchmany none).1 = Except.ok (([[1], [2]] : List Row).dropLast.map Fetched.frow) ∧
    ((c3buf.fetchmany none).2)._rows =
      RowsState.buf (([[1], [2]] : List Row).drop (([[1], [2]] : List Row).length - 1)) ∧
    (c3s.fetchmany none).1 = Except.error
      (PyErr.valueError "Stop argument for islice() must be None or an integer: 0 <= x <= maxsize.") :=
  C3_fetchmany_default_amended c3buf c3s [[1], [2]] (by decide) (by decide) (by decide)
    (by decide) (by decide) (by decide) (by decide)

/-- An empty connection and one holding a single issued cursor. -/
def conn0 : Connection :=
  { dsn := none, user := none, password := none, host := none, database := none, cursors := [] }

def conn1 : Connection := { conn0 with cursors := [Cursor.initial] }

/-- C4: Connection.close is meant to disconnect each issued cursor's client
without raising.  With no cursors it indeed does nothing, but for any
connection with at least one cursor the loop body looks up
cursor.disconnect, an attribute the Cursor class does not define, so close
raises AttributeError on the first cursor. -/
theorem C4_connection_close_attribute_error (ca cb : Connection) (cur : Cursor)
    (rest : List Cursor) (h0 : ca.cursors = []) (h1 : cb.cursors = cur :: rest) :
    Connection.close ca = Except.ok () ∧
    Connection.close cb =
      Except.error (PyErr.attributeError "Cursor object has no attribute disconnect") := by
  constructor
  · unfold Connection.close
    rw [h0]
    rfl
  · unfold Connection.close
    rw [h1]
    have hga : cur.getattrCheck "disconnect" =
        Except.error (PyErr.attributeError "Cursor object has no attribute disconnect") := by
      unfold Cursor.getattrCheck
      rw [if_neg (by decide)]
      decide
    rw [closeLoop, hga]

/-- C4 witness: close succeeds on a cursor-less connection and raises
AttributeError on a connection with one issued cursor. -/
theorem C4_connection_close_witness :
    Connection.close conn0 = Except.ok () ∧
    Connection.close conn1 =
      Except.error (PyErr.attributeError "Cursor object has no attribute disconnect") :=
  C4_connection_close_attribute_error conn0 conn1 Cursor.initial [] rfl rfl

/-- C5: the listed error behaviours do hold (closed cursor and no-query
raise the base adapter Error, a driver failure is wrapped into
OperationalError), but the errors are not exactly those: executing with a
registered external table lets the ValueError from _prepare escape
untranslated, so it is neither an adapter Error nor an OperationalError. -/
theorem C5_error_taxonomy_escape :
    ((Cursor.initial.close).execute "q" "p" clOk).1 =
      Except.error (PyErr.adapterError "Cursor is closed") ∧
    (Cursor.initial.fetchone).1 = Except.error (PyErr.adapterError "No query yet") ∧
    (Cursor.initial.execute "q" "p" clBoom).1 =
      Except.error (PyErr.operationalError "boom") ∧
    (c1ex.execute "q" "p" clOk).1 =
      Except.error (PyErr.valueError "unpack: wrong number of values") ∧
    (∀ s, PyErr.valueError "unpack: wrong number of values" ≠ PyErr.adapterError s) ∧
    (∀ s, PyErr.valueError "unpack: wrong number of values" ≠ PyErr.operationalError s) := by
  refine ⟨by decide, by decide, by decide, by decide, ?_, ?_⟩ <;> intro s <;> simp

/-- C6 counterexample: after a successful select holding row [7], a failing
re-execute leaves the cursor RUNNING with the previous row buffer intact,
and fetchone still returns the old row, so execute does not clear the
result state on entry. -/
theorem C6_execute_entry_counterexample :
    c6fail.1 = Except.error (PyErr.operationalError "server gone") ∧
    (c6fail.2)._state = CState.RUNNING ∧
    (c6fail.2)._rows = RowsState.buf [[7]] ∧
    (c6fail.2)._columns = some ["a"] ∧
    ((c6fail.2).fetchone).1 = Except.ok (Fetched.frow [7]) ∧
    Fetched.frow [7] ≠ Fetched.fnone :=
  ⟨by decide, by decide, by decide, by decide, by decide, by decide⟩

/-- C6 amended: execute on a non-closed cursor moves the state to RUNNING on
entry but does not clear columns, types or the row buffer; they are only
overwritten when a response is processed.  On success the state becomes
FINISHED; after a failing execute the previous rows remain fetchable. -/
theorem C6_execute_state_amended (cf cg : Cursor) (opf psf opg psg : String)
    (clf clg : ClientFun) (e : PyErr)
    (hcl : cf._state ≠ CState.CURSOR_CLOSED)
    (he : (cf.execute opf psf clf).1 = Except.error e)
    (hok : (cg.execute opg psg clg).1 = Except.ok ()) :
    ((cf.execute opf psf clf).2)._state = CState.RUNNING ∧
    ((cf.execute opf psf clf).2)._rows = cf._rows ∧
    ((cf.execute opf psf clf).2)._columns = cf._columns ∧
    ((cf.execute opf psf clf).2)._types = cf._types ∧
    ((cg.execute opg psg clg).2)._state = CState.FINISHED := by
  obtain ⟨a, b, d, f⟩ := execute_error_keeps cf opf psf clf e hcl he
  exact ⟨a, b, d, f, execute_ok_finished cg opg psg clg hok⟩

/-- C6 amended witness at the concrete failing re-execute of the
counterexample plus a fresh successful execute. -/
theorem C6_execute_state_amended_witness :
    ((c6fin.execute "q2" "p" clGone).2)._state = CState.RUNNING ∧
    ((c6fin.execute "q2" "p" clGone).2)._rows = c6fin._rows ∧
    ((c6fin.execute "q2" "p" clGone).2)._columns = c6fin._columns ∧
    ((c6fin.execute "q2" "p" clGone).2)._types = c6fin._types ∧
    ((Cursor.initial.execute "q" "p" clOk).2)._state = CState.FINISHED :=
  C6_execute_state_amended c6fin Cursor.initial "q2" "p" "q" "p" clGone clOk
    (PyErr.operationalError "server gone") (by decide) (by decide) (by decide)

/-- C7: after a successful select, in either mode, any sequence of fetchone,
fetchmany with non-negative explicit sizes, and fetchall calls succeeds, the
concatenation of all results equals the full result set in order, and a
final fetchall returns exactly the rows not yet fetched. -/
theorem C7_fetch_concat (stream : Bool) (R : List Row) (cwt : CWT) (ops : List FetchOp) :
    (selectExec stream R cwt).1 = Except.ok () ∧
    ∃ res c2, runFetches ((selectExec stream R cwt).2) ops = Except.ok (res, c2) ∧
      res ++ c2.remFetched = R.map Fetched.frow ∧
      (c2.fetchall).1 = Except.ok (FetchAllVal.vlist c2.remFetched) := by
  cases stream with
  | false =>
    obtain ⟨h1, h2, h3, h4, -, -⟩ := selectExec_buffered R cwt
    have hrem : ((selectExec false R cwt).2).remFetched = R.map Fetched.frow := by
      simp [Cursor.remFetched, h4]
    have hready : Ready ((selectExec false R cwt).2) := by
      refine ⟨by simp [h2], Or.inl ⟨h3, R, h4⟩⟩
    obtain ⟨res, c2, hrun, hsum, hready2⟩ := runFetches_ready _ ops hready
    exact ⟨h1, res, c2, hrun, by rw [hsum, hrem], fetchall_ready c2 hready2⟩
  | true =>
    obtain ⟨h1, h2, h3, h4, -, -⟩ := selectExec_streaming R cwt
    have hrem : ((selectExec true R cwt).2).remFetched = R.map Fetched.frow := by
      rw [Cursor.remFetched]
      simp only [h4]
      exact map_toFetched_row R
    have hready : Ready ((selectExec true R cwt).2) := by
      refine ⟨by simp [h2], Or.inr ⟨h3, R.map StreamElem.row, h4⟩⟩
    obtain ⟨res, c2, hrun, hsum, hready2⟩ := runFetches_ready _ ops hready
    exact ⟨h1, res, c2, hrun, by rw [hsum, hrem], fetchall_ready c2 hready2⟩

/-- C8: in streaming mode the response unpacking consumes exactly the first
element of the lazy sequence as the header (columns and types come from it)
and stores the remaining elements untouched as the row source; fetchone then
yields the rows in order followed by None, while fetchall instead returns
all remaining rows after which fetchone gives None and fetchall gives []. -/
theorem C8_streaming_unpack_and_fetch (R : List Row) (cwt : CWT) :
    (selectExec true R cwt).1 = Except.ok () ∧
    ((selectExec true R cwt).2)._columns = some (cwt.map Prod.fst) ∧
    ((selectExec true R cwt).2)._types = some (cwt.map Prod.snd) ∧
    ((selectExec true R cwt).2)._rows = RowsState.stream (R.map StreamElem.row) ∧
    fetchoneTimesE ((selectExec true R cwt).2) R.length =
      Except.ok (R.map Fetched.frow,
        { (selectExec true R cwt).2 with _rows := RowsState.stream [] }) ∧
    (({ (selectExec true R cwt).2 with _rows := RowsState.stream [] }).fetchone).1 =
      Except.ok Fetched.fnone ∧
    (((selectExec true R cwt).2).fetchall).1 =
      Except.ok (FetchAllVal.vlist (R.map Fetched.frow)) ∧
    ((((selectExec true R cwt).2).fetchall).2.fetchone).1 = Except.ok Fetched.fnone ∧
    ((((selectExec true R cwt).2).fetchall).2.fetchall).1 =
      Except.ok (FetchAllVal.vlist []) := by
  obtain ⟨h1, h2, h3, h4, h5, h6⟩ := selectExec_streaming R cwt
  have hne : ((selectExec true R cwt).2)._state ≠ CState.NONE := by simp [h2]
  have hfa : ((selectExec true R cwt).2).fetchall =
      (Except.ok (FetchAllVal.vlist (R.map Fetched.frow)),
       { (selectExec true R cwt).2 with _rows := RowsState.stream [] }) := by
    simp [Cursor.fetchall, Cursor._check_query_started, hne, h3, h4, map_toFetched_row, StreamElem.toFetched]
  refine ⟨h1, h5, h6, h4, fetchoneTimesE_stream R _ hne h3 h4, ?_, ?_, ?_, ?_⟩
  · simp [Cursor.fetchone, Cursor._check_query_started, hne, h3]
  · rw [hfa]
  · rw [hfa]
    simp [Cursor.fetchone, Cursor._check_query_started, hne, h3]
  · rw [hfa]
    simp [Cursor.fetchall, Cursor._check_query_started, hne, h3]

/-- C9 counterexample: a streaming execute rewrites the staged settings map
in place (adding max_block_size), so the per-query options do not all
persist unchanged across executes. -/
theorem C9_options_persist_counterexample :
    c9s._settings = some [("a", 1)] ∧
    ((c9s.execute "q" "p" cl9).2)._settings = some [("a", 1), ("max_block_size", 42)] ∧
    ((c9s.execute "q" "p" cl9).2)._settings ≠ c9s._settings :=
  ⟨by decide, by decide, by decide⟩

/-- C9 amended: execute and executemany never clear the staged per-query
options — the external-table map, types-check flag, streaming flag and
max-row-buffer always persist, and the settings map persists unchanged in
buffered mode — but a streaming execute writes max_block_size into the
settings map (replacing a falsy one by a fresh dict); registering an
external table under an existing name replaces the entry, so the last
registration wins. -/
theorem C9_options_persist_amended (cAny cAny2 cb cs cup : Cursor)
    (op1 ps1 op2 ps2 op3 ps3 op4 ps4 : String)
    (cl1 cl2 cl3 cl4 : ClientFun)
    (n : String) (s1 s2 : TableStructure) (d1 d2 : List Row)
    (hb : cb._stream_results = false)
    (hs1 : cs._stream_results = true) (hs2 : cs._external_tables = [])
    (hs3 : cs._state ≠ CState.CURSOR_CLOSED) :
    ((cAny.execute op1 ps1 cl1).2)._external_tables = cAny._external_tables ∧
    ((cAny.execute op1 ps1 cl1).2)._types_check = cAny._types_check ∧
    ((cAny.execute op1 ps1 cl1).2)._stream_results = cAny._stream_results ∧
    ((cAny.execute op1 ps1 cl1).2)._max_row_buffer = cAny._max_row_buffer ∧
    ((cAny2.executemany op2 ps2 cl2).2)._external_tables = cAny2._external_tables ∧
    ((cAny2.executemany op2 ps2 cl2).2)._types_check = cAny2._types_check ∧
    ((cAny2.executemany op2 ps2 cl2).2)._stream_results = cAny2._stream_results ∧
    ((cAny2.executemany op2 ps2 cl2).2)._max_row_buffer = cAny2._max_row_buffer ∧
    ((cb.execute op3 ps3 cl3).2)._settings = cb._settings ∧
    ((cb.executemany op3 ps3 cl3).2)._settings = cb._settings ∧
    ((cs.execute op4 ps4 cl4).2)._settings =
      some (dictSet (settingsOrEmpty cs._settings) "max_block_size" cs._max_row_buffer) ∧
    ((cup.set_external_table n s1 d1).set_external_table n s2 d2)._external_tables =
      (cup.set_external_table n s2 d2)._external_tables := by
  obtain ⟨a1, a2, a3, a4, -⟩ := execute_keeps_options cAny op1 ps1 cl1
  obtain ⟨b1, b2, b3, b4, -⟩ := executemany_keeps_options cAny2 op2 ps2 cl2
  refine ⟨a1, a2, a3, a4, b1, b2, b3, b4,
    execute_settings_buffered cb op3 ps3 cl3 hb,
    executemany_settings_buffered cb op3 ps3 cl3 hb,
    execute_settings_streaming cs op4 ps4 cl4 hs1 hs2 hs3, ?_⟩
  simp [Cursor.set_external_table, dictSet_last_wins]

/-- C9 amended witness at concrete cursors: a buffered and a streaming
execute plus a double registration under one name. -/
theorem C9_options_persist_amended_witness :
    ((Cursor.initial.execute "q" "p" cl9).2)._external_tables = Cursor.initial._external_tables ∧
    ((Cursor.initial.execute "q" "p" cl9).2)._types_check = Cursor.initial._types_check ∧
    ((Cursor.initial.execute "q" "p" cl9).2)._stream_results = Cursor.initial._stream_results ∧
    ((Cursor.initial.execute "q" "p" cl9).2)._max_row_buffer = Cursor.initial._max_row_buffer ∧
    ((Cursor.initial.executemany "q" "p" cl9).2)._external_tables = Cursor.initial._external_tables ∧
    ((Cursor.initial.executemany "q" "p" cl9).2)._types_check = Cursor.initial._types_check ∧
    ((Cursor.initial.executemany "q" "p" cl9).2)._stream_results = Cursor.initial._stream_results ∧
    ((Cursor.initial.executemany "q" "p" cl9).2)._max_row_buffer = Cursor.initial._max_row_buffer ∧
    ((c9b.execute "q" "p" clOk).2)._settings = c9b._settings ∧
    ((c9b.executemany "q" "p" clOk).2)._settings = c9b._settings ∧
    ((c9s.execute "q" "p" cl9).2)._settings =
      some (dictSet (settingsOrEmpty c9s._settings) "max_block_size" c9s._max_row_buffer) ∧
    ((Cursor.initial.set_external_table "x" [("a", "Int32")] [[1]]).set_external_table "x"
        [("b", "Int64")] [[2]])._external_tables =
      (Cursor.initial.set_external_table "x" [("b", "Int64")] [[2]])._external_tables :=
  C9_options_persist_amended Cursor.initial Cursor.initial c9b c9s Cursor.initial
    "q" "p" "q" "p" "q" "p" "q" "p" cl9 cl9 clOk cl9
    "x" [("a", "Int32")] [("b", "Int64")] [[1]] [[2]]
    (by decide) (by decide) (by decide) (by decide)

/-- The settings-staging steps of the C10 scenario: the caller's dict lives
at heap reference 0, is staged via set_settings, and streaming is enabled
with the given buffer size. -/
def stageCaller (mb : Int) : RefCursor :=
  (({ _stream_results := false, _max_row_buffer := 0,
      _settings := none } : RefCursor).set_settings (some 0)).set_stream_results true mb

/-- C10 counterexample: when the caller stages an empty dict, the expression
self._settings or-default sees it as falsy and allocates a fresh dict, so
preparing a streaming execute writes max_block_size into the fresh dict
(reference 1) and the caller's own dict at reference 0 stays untouched —
the forced value does not remain in the caller's dict. -/
theorem C10_settings_alias_counterexample :
    dictGet (((stageCaller 5).prepareSettings { dicts := [[]] }).2.get 0) "max_block_size" =
      none ∧
    ((stageCaller 5).prepareSettings { dicts := [[]] }).1._settings = some 1 ∧
    dictGet (((stageCaller 5).prepareSettings { dicts := [[]] }).2.get 1) "max_block_size" =
      some 5 :=
  ⟨by decide, by decide, by decide⟩

/-- C10 amended: preparing a streaming execute writes max_block_size into
the staged settings dict in place when that dict is truthy (nonempty), so
the forced value is then visible through the caller's reference and stays in
the cursor's settings for later executes — a subsequent buffered prepare
changes nothing; but a falsy staged dict (None or empty) is replaced by a
fresh dict and the caller's own dict is not mutated. -/
theorem C10_settings_alias_amended (d : Settings) (mb : Int) (hne : d ≠ []) :
    ((stageCaller mb).prepareSettings { dicts := [d] }).1._settings = some 0 ∧
    dictGet (((stageCaller mb).prepareSettings { dicts := [d] }).2.get 0) "max_block_size" =
      some mb ∧
    ((((stageCaller mb).prepareSettings { dicts := [d] }).1.set_stream_results false
        0).prepareSettings ((stageCaller mb).prepareSettings { dicts := [d] }).2) =
      ((((stageCaller mb).prepareSettings { dicts := [d] }).1.set_stream_results false 0),
       ((stageCaller mb).prepareSettings { dicts := [d] }).2) := by
  have hde : d.isEmpty = false := by
    cases d with
    | nil => exact absurd rfl hne
    | cons a t => rfl
  have hps : (stageCaller mb).prepareSettings { dicts := [d] } =
      ({ _stream_results := true, _max_row_buffer := mb, _settings := some 0 },
       { dicts := [dictSet d "max_block_size" mb] }) := by
    unfold RefCursor.prepareSettings stageCaller RefCursor.set_settings RefCursor.set_stream_results
    simp [Heap.get, Heap.setRef, hde]
  refine ⟨by rw [hps], ?_, ?_⟩
  · rw [hps]
    simp [Heap.get, dictGet_dictSet]
  · rw [hps]
    exact prepareSettings_buffered_id _ _ rfl

/-- C10 amended witness at a concrete nonempty caller dict. -/
theorem C10_settings_alias_amended_witness :
    ((stageCaller 7).prepareSettings { dicts := [[("a", 1)]] }).1._settings = some 0 ∧
    dictGet (((stageCaller 7).prepareSettings { dicts := [[("a", 1)]] }).2.get 0)
      "max_block_size" = some 7 ∧
    ((((stageCaller 7).prepareSettings { dicts := [[("a", 1)]] }).1.set_stream_results false
        0).prepareSettings ((stageCaller 7).prepareSettings { dicts := [[("a", 1)]] }).2) =
      ((((stageCaller 7).prepareSettings { dicts := [[("a", 1)]] }).1.set_stream_results false 0),
       ((stageCaller 7).prepareSettings { dicts := [[("a", 1)]] }).2) :=
  C10_settings_alias_amended [("a", 1)] 7 (by decide)

end CHConnect
